import Mathlib

/-!
Shallow embedding of the change-stream event types
(`src/vendor/mongodb/src/change_stream/event.rs`) and of the connection-pool
option types (`src/vendor/mongodb/src/cmap/options.rs`), together with
theorems checking the natural-language specification against them.

BSON values are modelled by the inductive `Bson` below, restricted to the
fragment that the change-stream wire format uses (null, 32-bit integers,
strings, timestamps, documents and arrays).  Serde's derived `Serialize` /
`Deserialize` for the event structs is embedded explicitly:

* serialization emits every field in declaration order, camelCased, with
  `Option::None` rendered as BSON null (there are no `skip_serializing_if`
  attributes on these structs);
* deserialization folds over the document's fields left to right, erroring
  on a duplicate known field, skipping unknown fields (none of the structs
  carry `deny_unknown_fields`), and at the end requiring the non-`Option`
  fields to have been seen while defaulting missing `Option` fields to
  `None` (serde's special case for `Option`).

Fallibility is modelled with `Option` (serde's `Result` with the error
message erased), except for `BackgroundThreadInterval::deserialize`, whose
explicit custom error string is kept via `Except`.
-/

namespace Mongo

/-- The fragment of BSON used by the change-stream wire shape. -/
inductive Bson where
  | null
  | int32 (n : Int)
  | string (s : String)
  | timestamp (time : Nat) (increment : Nat)
  | document (fields : List (String × Bson))
  | array (elems : List Bson)

/-- A BSON document: an ordered list of key/value pairs (`bson::Document`,
and also the embedding of `RawDocumentBuf`). -/
abbrev Document := List (String × Bson)

/-- `bson::Timestamp { time: u32, increment: u32 }`. -/
structure Timestamp where
  time : Nat
  increment : Nat

/-- `pub struct ResumeToken(pub(crate) RawBson)` — an opaque token wrapping
an arbitrary raw BSON value. -/
structure ResumeToken where
  raw : Bson

/-- `enum OperationType` from `event.rs` — exactly eight variants, no
catch-all variant. -/
inductive OperationType where
  | insert
  | update
  | replace
  | delete
  | drop
  | rename
  | dropDatabase
  | invalidate

/-- `struct ChangeNamespace { db: String, coll: Option<String> }`. -/
structure ChangeNamespace where
  db : String
  coll : Option String

/-- `struct TruncatedArray { field: String, new_size: i32 }`. -/
structure TruncatedArray where
  field : String
  new_size : Int

/-- `struct UpdateDescription` from `event.rs`. -/
structure UpdateDescription where
  updated_fields : Document
  removed_fields : List String
  truncated_arrays : Option (List TruncatedArray)

/-- `struct ChangeStreamEvent<T>` from `event.rs`, instantiated at
`T = Document` (the driver's default event payload type). -/
structure ChangeStreamEvent where
  id : ResumeToken
  operation_type : OperationType
  ns : Option ChangeNamespace
  «to» : Option ChangeNamespace
  document_key : Option Document
  update_description : Option UpdateDescription
  cluster_time : Option Timestamp
  full_document : Option Document

/-- Modelled from the spec: `crate::options::ChangeStreamOptions` is not
under `src/`; the spec says the options include `resume_after`,
`start_after`, a batch size and a full-document policy.  Only the two
token fields are read by the code under `src/`. -/
structure ChangeStreamOptions where
  resume_after : Option ResumeToken
  start_after : Option ResumeToken
  batch_size : Option Int
  full_document : Option String

/-- Modelled from the spec: `crate::cursor::CursorSpecification` is not
under `src/`; the spec says the Cursor Source's open returns a cursor
specification including an initial batch and a post-batch resume token. -/
structure CursorSpecification where
  initial_buffer : List Document
  post_batch_resume_token : Option ResumeToken

/-- `ResumeToken::initial` from `event.rs`: the post-batch token when it is
present and the initial buffer is empty, otherwise
`options.and_then(|o| o.start_after.as_ref().or(o.resume_after.as_ref())).cloned()`. -/
def ResumeToken.initial (options : Option ChangeStreamOptions)
    (spec : CursorSpecification) : Option ResumeToken :=
  match spec.post_batch_resume_token with
  | some token =>
    if spec.initial_buffer.isEmpty then some token
    else options.bind fun o => o.start_after.or o.resume_after
  | none => options.bind fun o => o.start_after.or o.resume_after

/-- `ResumeToken::from_raw`: `doc.map(|doc| ResumeToken(RawBson::Document(doc)))`. -/
def ResumeToken.from_raw (doc : Option Document) : Option ResumeToken :=
  doc.map fun d => ResumeToken.mk (Bson.document d)

/-! ## Serialization (serde derive, `rename_all = "camelCase"`) -/

/-- The camelCase wire name of each `OperationType` variant. -/
def OperationType.toWire : OperationType → String
  | .insert => "insert"
  | .update => "update"
  | .replace => "replace"
  | .delete => "delete"
  | .drop => "drop"
  | .rename => "rename"
  | .dropDatabase => "dropDatabase"
  | .invalidate => "invalidate"

/-- Serde serialization of an `Option` field: `None` becomes BSON null. -/
def serializeOpt (f : α → Bson) : Option α → Bson
  | none => Bson.null
  | some a => f a

/-- Serialization of `Timestamp`. -/
def Timestamp.toBson (t : Timestamp) : Bson := Bson.timestamp t.time t.increment

/-- Serialization of `ChangeNamespace` (no `rename_all`: field names `db`,
`coll` are used as written). -/
def ChangeNamespace.toBson (ns : ChangeNamespace) : Bson :=
  Bson.document [("db", Bson.string ns.db), ("coll", serializeOpt Bson.string ns.coll)]

/-- Serialization of `TruncatedArray` (camelCase: `field`, `newSize`). -/
def TruncatedArray.toBson (t : TruncatedArray) : Bson :=
  Bson.document [("field", Bson.string t.field), ("newSize", Bson.int32 t.new_size)]

/-- Serialization of `UpdateDescription` (camelCase field names). -/
def UpdateDescription.toBson (u : UpdateDescription) : Bson :=
  Bson.document
    [("updatedFields", Bson.document u.updated_fields),
     ("removedFields", Bson.array (u.removed_fields.map Bson.string)),
     ("truncatedArrays",
       serializeOpt (fun l => Bson.array (l.map TruncatedArray.toBson)) u.truncated_arrays)]

/-- Serialization of `ChangeStreamEvent` to a document: fields in
declaration order, camelCased, with `id` renamed to `_id`.  `ResumeToken`
is a newtype, so it serializes as its inner raw BSON value. -/
def ChangeStreamEvent.serialize (e : ChangeStreamEvent) : Document :=
  [("_id", e.id.raw),
   ("operationType", Bson.string e.operation_type.toWire),
   ("ns", serializeOpt ChangeNamespace.toBson e.ns),
   ("to", serializeOpt ChangeNamespace.toBson e.«to»),
   ("documentKey", serializeOpt Bson.document e.document_key),
   ("updateDescription", serializeOpt UpdateDescription.toBson e.update_description),
   ("clusterTime", serializeOpt Timestamp.toBson e.cluster_time),
   ("fullDocument", serializeOpt Bson.document e.full_document)]

/-! ## Deserialization (serde derive, embedded as field folds) -/

/-- Reading back an `OperationType` from its wire string: serde's derived
`Deserialize` with `rename_all = "camelCase"` accepts exactly the eight
camelCased variant names and errors on anything else. -/
def OperationType.fromWire (s : String) : Option OperationType :=
  if s = "insert" then some .insert
  else if s = "update" then some .update
  else if s = "replace" then some .replace
  else if s = "delete" then some .delete
  else if s = "drop" then some .drop
  else if s = "rename" then some .rename
  else if s = "dropDatabase" then some .dropDatabase
  else if s = "invalidate" then some .invalidate
  else none

/-- Is a BSON value null?  (Drives serde's `Option` deserialization.) -/
def Bson.isNull : Bson → Bool
  | .null => true
  | _ => false

/-- Deserialize a `String`. -/
def parseString : Bson → Option String
  | .string s => some s
  | _ => none

/-- Deserialize an `i32`. -/
def parseI32 : Bson → Option Int
  | .int32 n => some n
  | _ => none

/-- Deserialize a `Timestamp`. -/
def parseTimestamp : Bson → Option Timestamp
  | .timestamp t i => some (Timestamp.mk t i)
  | _ => none

/-- Deserialize a `Document`. -/
def parseDocumentValue : Bson → Option Document
  | .document d => some d
  | _ => none

/-- Deserialize an `OperationType` (a camelCased string). -/
def parseOperationType : Bson → Option OperationType
  | .string s => OperationType.fromWire s
  | _ => none

/-- Serde's `Option<T>` deserialization: null yields `None`, anything else
is handed to `T`'s deserializer and wrapped in `Some`. -/
def parseOpt (g : Bson → Option α) (b : Bson) : Option (Option α) :=
  if b.isNull then some none else (g b).map some

/-- Deserialize the elements of a sequence one after the other, failing as
soon as one element fails. -/
def parseElems (g : Bson → Option α) : List Bson → Option (List α)
  | [] => some []
  | b :: rest => (g b).bind fun a => (parseElems g rest).map fun l => a :: l

/-- Deserialize a `Vec<T>`: a BSON array whose every element parses. -/
def parseList (g : Bson → Option α) : Bson → Option (List α)
  | .array l => parseElems g l
  | _ => none

/-- Field-fold state for `TruncatedArray`: a slot per field, `some` once the
field has been seen. -/
structure TruncatedArraySlots where
  field : Option String
  newSize : Option Int

/-- One deserialization step for a `TruncatedArray` field: a known duplicate
field is an error, an unknown field is skipped. -/
def TruncatedArray.step (s : TruncatedArraySlots) (kv : String × Bson) :
    Option TruncatedArraySlots :=
  if kv.1 = "field" then
    match s.field with
    | some _ => none
    | none => (parseString kv.2).map fun v => { s with field := some v }
  else if kv.1 = "newSize" then
    match s.newSize with
    | some _ => none
    | none => (parseI32 kv.2).map fun v => { s with newSize := some v }
  else some s

/-- Fold `TruncatedArray.step` over a field list. -/
def TruncatedArray.foldFields : List (String × Bson) → TruncatedArraySlots →
    Option TruncatedArraySlots
  | [], s => some s
  | kv :: rest, s => (TruncatedArray.step s kv).bind (TruncatedArray.foldFields rest)

/-- Deserialize a `TruncatedArray`: both fields are required. -/
def TruncatedArray.fromBson : Bson → Option TruncatedArray
  | .document fields =>
    (TruncatedArray.foldFields fields (TruncatedArraySlots.mk none none)).bind fun s =>
      s.field.bind fun f => s.newSize.map fun n => TruncatedArray.mk f n
  | _ => none

/-- Field-fold state for `ChangeNamespace`.  `coll` is an `Option` field, so
its slot distinguishes "absent" from "seen as null". -/
structure ChangeNamespaceSlots where
  db : Option String
  coll : Option (Option String)

/-- One deserialization step for a `ChangeNamespace` field. -/
def ChangeNamespace.step (s : ChangeNamespaceSlots) (kv : String × Bson) :
    Option ChangeNamespaceSlots :=
  if kv.1 = "db" then
    match s.db with
    | some _ => none
    | none => (parseString kv.2).map fun v => { s with db := some v }
  else if kv.1 = "coll" then
    match s.coll with
    | some _ => none
    | none => (parseOpt parseString kv.2).map fun v => { s with coll := some v }
  else some s

/-- Fold `ChangeNamespace.step` over a field list. -/
def ChangeNamespace.foldFields : List (String × Bson) → ChangeNamespaceSlots →
    Option ChangeNamespaceSlots
  | [], s => some s
  | kv :: rest, s => (ChangeNamespace.step s kv).bind (ChangeNamespace.foldFields rest)

/-- Deserialize a `ChangeNamespace`: `db` is required, a missing `coll`
defaults to `None`. -/
def ChangeNamespace.fromBson : Bson → Option ChangeNamespace
  | .document fields =>
    (ChangeNamespace.foldFields fields (ChangeNamespaceSlots.mk none none)).bind fun s =>
      s.db.map fun db => ChangeNamespace.mk db (s.coll.getD none)
  | _ => none

/-- Field-fold state for `UpdateDescription`. -/
structure UpdateDescriptionSlots where
  updatedFields : Option Document
  removedFields : Option (List String)
  truncatedArrays : Option (Option (List TruncatedArray))

/-- One deserialization step for an `UpdateDescription` field. -/
def UpdateDescription.step (s : UpdateDescriptionSlots) (kv : String × Bson) :
    Option UpdateDescriptionSlots :=
  if kv.1 = "updatedFields" then
    match s.updatedFields with
    | some _ => none
    | none => (parseDocumentValue kv.2).map fun v => { s with updatedFields := some v }
  else if kv.1 = "removedFields" then
    match s.removedFields with
    | some _ => none
    | none => (parseList parseString kv.2).map fun v => { s with removedFields := some v }
  else if kv.1 = "truncatedArrays" then
    match s.truncatedArrays with
    | some _ => none
    | none =>
      (parseOpt (parseList TruncatedArray.fromBson) kv.2).map fun v =>
        { s with truncatedArrays := some v }
  else some s

/-- Fold `UpdateDescription.step` over a field list. -/
def UpdateDescription.foldFields : List (String × Bson) → UpdateDescriptionSlots →
    Option UpdateDescriptionSlots
  | [], s => some s
  | kv :: rest, s => (UpdateDescription.step s kv).bind (UpdateDescription.foldFields rest)

/-- Deserialize an `UpdateDescription`: `updatedFields` and `removedFields`
are required, a missing `truncatedArrays` defaults to `None`. -/
def UpdateDescription.fromBson : Bson → Option UpdateDescription
  | .document fields =>
    (UpdateDescription.foldFields fields
        (UpdateDescriptionSlots.mk none none none)).bind fun s =>
      s.updatedFields.bind fun uf => s.removedFields.map fun rf =>
        UpdateDescription.mk uf rf (s.truncatedArrays.getD none)
  | _ => none

/-- Field-fold state for `ChangeStreamEvent`. -/
structure EventSlots where
  id : Option Bson
  operationType : Option OperationType
  ns : Option (Option ChangeNamespace)
  toNs : Option (Option ChangeNamespace)
  documentKey : Option (Option Document)
  updateDescription : Option (Option UpdateDescription)
  clusterTime : Option (Option Timestamp)
  fullDocument : Option (Option Document)

/-- The empty event slot state. -/
def EventSlots.empty : EventSlots :=
  EventSlots.mk none none none none none none none none

/-- One deserialization step for a `ChangeStreamEvent` field: a duplicate
known field errors, an unrecognized field name is skipped (serde tolerates
unknown fields). -/
def ChangeStreamEvent.step (s : EventSlots) (kv : String × Bson) : Option EventSlots :=
  if kv.1 = "_id" then
    match s.id with
    | some _ => none
    | none => some { s with id := some kv.2 }
  else if kv.1 = "operationType" then
    match s.operationType with
    | some _ => none
    | none => (parseOperationType kv.2).map fun v => { s with operationType := some v }
  else if kv.1 = "ns" then
    match s.ns with
    | some _ => none
    | none => (parseOpt ChangeNamespace.fromBson kv.2).map fun v => { s with ns := some v }
  else if kv.1 = "to" then
    match s.toNs with
    | some _ => none
    | none => (parseOpt ChangeNamespace.fromBson kv.2).map fun v => { s with toNs := some v }
  else if kv.1 = "documentKey" then
    match s.documentKey with
    | some _ => none
    | none => (parseOpt parseDocumentValue kv.2).map fun v => { s with documentKey := some v }
  else if kv.1 = "updateDescription" then
    match s.updateDescription with
    | some _ => none
    | none =>
      (parseOpt UpdateDescription.fromBson kv.2).map fun v =>
        { s with updateDescription := some v }
  else if kv.1 = "clusterTime" then
    match s.clusterTime with
    | some _ => none
    | none => (parseOpt parseTimestamp kv.2).map fun v => { s with clusterTime := some v }
  else if kv.1 = "fullDocument" then
    match s.fullDocument with
    | some _ => none
    | none => (parseOpt parseDocumentValue kv.2).map fun v => { s with fullDocument := some v }
  else some s

/-- Fold `ChangeStreamEvent.step` over the document's fields. -/
def ChangeStreamEvent.foldFields : List (String × Bson) → EventSlots → Option EventSlots
  | [], s => some s
  | kv :: rest, s => (ChangeStreamEvent.step s kv).bind (ChangeStreamEvent.foldFields rest)

/-- Assemble the event from the final slot state: `_id` and `operationType`
are required, missing `Option` fields default to `None`. -/
def ChangeStreamEvent.finish (s : EventSlots) : Option ChangeStreamEvent :=
  s.id.bind fun idv => s.operationType.map fun op =>
    ChangeStreamEvent.mk (ResumeToken.mk idv) op (s.ns.getD none) (s.toNs.getD none)
      (s.documentKey.getD none) (s.updateDescription.getD none)
      (s.clusterTime.getD none) (s.fullDocument.getD none)

/-- Deserialize a `ChangeStreamEvent` from a document. -/
def ChangeStreamEvent.deserialize (fields : Document) : Option ChangeStreamEvent :=
  (ChangeStreamEvent.foldFields fields EventSlots.empty).bind ChangeStreamEvent.finish

/-! ## Connection-pool options (`src/vendor/mongodb/src/cmap/options.rs`) -/

/-- `std::time::Duration`: seconds plus sub-second nanoseconds. -/
structure Duration where
  secs : Nat
  nanos : Nat

/-- `Duration::from_millis`. -/
def Duration.from_millis (ms : Nat) : Duration :=
  Duration.mk (ms / 1000) ((ms % 1000) * 1000000)

/-- `enum BackgroundThreadInterval { Never, Every(Duration) }`. -/
inductive BackgroundThreadInterval where
  | never
  | every (d : Duration)

/-- The custom `Deserialize` impl for `BackgroundThreadInterval`: reads an
`i64` millisecond count and matches `millis.cmp(&0)` — `Less` gives
`Never`, `Equal` errors with "zero is not allowed", `Greater` gives
`Every(Duration::from_millis(millis as u64))`. -/
def BackgroundThreadInterval.deserialize (millis : Int) :
    Except String BackgroundThreadInterval :=
  if millis < 0 then Except.ok BackgroundThreadInterval.never
  else if millis = 0 then Except.error "zero is not allowed"
  else Except.ok (BackgroundThreadInterval.every (Duration.from_millis millis.toNat))

/-- Opaque stand-in for `crate::client::auth::Credential` (external). -/
structure Credential where

/-- Opaque stand-in for `crate::options::DriverInfo` (external). -/
structure DriverInfo where

/-- Opaque stand-in for the `CmapEventHandler` trait object (external). -/
structure CmapEventHandler where

/-- Opaque stand-in for `crate::compression::Compressor` (external). -/
structure Compressor where

/-- Opaque stand-in for `crate::client::options::ServerApi` (external). -/
structure ServerApi where

/-- Opaque stand-in for `crate::options::TlsOptions` (external). -/
structure TlsOptions where

/-- `struct ConnectionPoolOptions` from `options.rs` (with the
`#[cfg(test)]` fields `background_thread_interval` and `ready` included).
Every field is an `Option`. -/
structure ConnectionPoolOptions where
  app_name : Option String
  connect_timeout : Option Duration
  credential : Option Credential
  driver_info : Option DriverInfo
  cmap_event_handler : Option CmapEventHandler
  compressors : Option (List Compressor)
  background_thread_interval : Option BackgroundThreadInterval
  max_idle_time : Option Duration
  max_pool_size : Option Nat
  min_pool_size : Option Nat
  ready : Option Bool
  server_api : Option ServerApi
  tls_options : Option TlsOptions
  load_balanced : Option Bool

/-- `#[derive(Default)]` on `ConnectionPoolOptions`: every field is `None`. -/
def ConnectionPoolOptions.default : ConnectionPoolOptions :=
  ConnectionPoolOptions.mk none none none none none none none none none none
    none none none none

/-- Modelled from the spec: the worker that consumes these options is not
under `src/`; the spec (and the field's own doc comment) says the default
for `max_pool_size` is 10 when the option is unset. -/
def ConnectionPoolOptions.effectiveMaxPoolSize (o : ConnectionPoolOptions) : Nat :=
  o.max_pool_size.getD 10

/-- Modelled from the spec: the worker that consumes these options is not
under `src/`; the spec (and the field's own doc comment) says that when
`min_pool_size` is unset no minimum is enforced (0). -/
def ConnectionPoolOptions.effectiveMinPoolSize (o : ConnectionPoolOptions) : Nat :=
  o.min_pool_size.getD 0

/-! ## Round-trip helper lemmas -/

theorem OperationType.fromWire_toWire (op : OperationType) :
    OperationType.fromWire op.toWire = some op := by
  cases op <;> rfl

theorem parseOpt_serializeOpt (f : α → Bson) (g : Bson → Option α)
    (h : ∀ a, g (f a) = some a) (hn : ∀ a, (f a).isNull = false) (o : Option α) :
    parseOpt g (serializeOpt f o) = some o := by
  cases o with
  | none => rfl
  | some a => simp [parseOpt, serializeOpt, hn, h]

theorem parseElems_map_of_inverse (f : α → Bson) (g : Bson → Option α)
    (h : ∀ a, g (f a) = some a) (l : List α) : parseElems g (l.map f) = some l := by
  induction l with
  | nil => rfl
  | cons a rest ih => simp [parseElems, h, ih]

theorem parseString_string (s : String) : parseString (Bson.string s) = some s := rfl

theorem parseElems_parseString (l : List String) :
    parseElems parseString (l.map Bson.string) = some l :=
  parseElems_map_of_inverse Bson.string parseString parseString_string l

theorem TruncatedArray.fromBson_toBson_truncated (t : TruncatedArray) :
    TruncatedArray.fromBson t.toBson = some t := rfl

theorem parseElems_truncatedArray (l : List TruncatedArray) :
    parseElems TruncatedArray.fromBson (l.map TruncatedArray.toBson) = some l :=
  parseElems_map_of_inverse TruncatedArray.toBson TruncatedArray.fromBson
    TruncatedArray.fromBson_toBson_truncated l

theorem ChangeNamespace.fromBson_toBson_namespace (ns : ChangeNamespace) :
    ChangeNamespace.fromBson ns.toBson = some ns := by
  obtain ⟨db, coll⟩ := ns
  cases coll <;> rfl

theorem UpdateDescription.fromBson_toBson_updateDesc (u : UpdateDescription) :
    UpdateDescription.fromBson u.toBson = some u := by
  obtain ⟨uf, rf, ta⟩ := u
  cases ta with
  | none =>
    simp [UpdateDescription.toBson, UpdateDescription.fromBson,
      UpdateDescription.foldFields, UpdateDescription.step, serializeOpt,
      parseDocumentValue, parseList, parseOpt, Bson.isNull, parseElems_parseString]
  | some l =>
    simp [UpdateDescription.toBson, UpdateDescription.fromBson,
      UpdateDescription.foldFields, UpdateDescription.step, serializeOpt,
      parseDocumentValue, parseList, parseOpt, Bson.isNull, parseElems_parseString,
      parseElems_truncatedArray]

theorem parseOpt_namespace (o : Option ChangeNamespace) :
    parseOpt ChangeNamespace.fromBson (serializeOpt ChangeNamespace.toBson o) = some o :=
  parseOpt_serializeOpt ChangeNamespace.toBson ChangeNamespace.fromBson
    ChangeNamespace.fromBson_toBson_namespace (fun _ => rfl) o

theorem parseOpt_document (o : Option Document) :
    parseOpt parseDocumentValue (serializeOpt Bson.document o) = some o :=
  parseOpt_serializeOpt Bson.document parseDocumentValue (fun _ => rfl) (fun _ => rfl) o

theorem parseOpt_updateDescription (o : Option UpdateDescription) :
    parseOpt UpdateDescription.fromBson (serializeOpt UpdateDescription.toBson o) = some o :=
  parseOpt_serializeOpt UpdateDescription.toBson UpdateDescription.fromBson
    UpdateDescription.fromBson_toBson_updateDesc (fun _ => rfl) o

theorem parseOpt_timestamp (o : Option Timestamp) :
    parseOpt parseTimestamp (serializeOpt Timestamp.toBson o) = some o :=
  parseOpt_serializeOpt Timestamp.toBson parseTimestamp (fun _ => rfl) (fun _ => rfl) o

theorem UpdateDescription.toBson_isNull (u : UpdateDescription) :
    (UpdateDescription.toBson u).isNull = false := rfl

/-- Serializing any event and deserializing the resulting document gives
back the original event. -/
theorem ChangeStreamEvent.roundtrip (e : ChangeStreamEvent) :
    ChangeStreamEvent.deserialize e.serialize = some e := by
  obtain ⟨⟨idraw⟩, op, ns, tons, dk, ud, ct, fd⟩ := e
  simp [ChangeStreamEvent.serialize, ChangeStreamEvent.deserialize,
    ChangeStreamEvent.foldFields, ChangeStreamEvent.step, EventSlots.empty,
    ChangeStreamEvent.finish, parseOperationType, OperationType.fromWire_toWire,
    parseOpt_namespace, parseOpt_document, parseOpt_updateDescription,
    parseOpt_timestamp]

/-- The known top-level wire field names of a change-stream event. -/
def knownEventKeys : List String :=
  ["_id", "operationType", "ns", "to", "documentKey", "updateDescription",
   "clusterTime", "fullDocument"]

theorem step_unknown_key (s : EventSlots) (k : String) (v : Bson)
    (h : k ∉ knownEventKeys) : ChangeStreamEvent.step s (k, v) = some s := by
  simp [knownEventKeys, List.mem_cons] at h
  obtain ⟨h1, h2, h3, h4, h5, h6, h7, h8⟩ := h
  simp [ChangeStreamEvent.step, h1, h2, h3, h4, h5, h6, h7, h8]

theorem foldFields_skip_unknown (k : String) (v : Bson) (h : k ∉ knownEventKeys)
    (l1 l2 : List (String × Bson)) (s : EventSlots) :
    ChangeStreamEvent.foldFields (l1 ++ (k, v) :: l2) s =
      ChangeStreamEvent.foldFields (l1 ++ l2) s := by
  induction l1 generalizing s with
  | nil => simp [ChangeStreamEvent.foldFields, step_unknown_key _ _ _ h]
  | cons kv rest ih =>
    simp only [List.cons_append, ChangeStreamEvent.foldFields]
    cases hstep : ChangeStreamEvent.step s kv with
    | none => rfl
    | some next => simp [ih]

/-- The `start_after`-then-`resume_after` fallback, written out the way the
spec phrases it. -/
theorem bind_start_or_resume (options : Option ChangeStreamOptions) :
    (options.bind fun o => o.start_after.or o.resume_after) =
      match options with
      | none => none
      | some o =>
        match o.start_after with
        | some t => some t
        | none => o.resume_after := by
  cases options with
  | none => rfl
  | some o => cases h : o.start_after <;> simp [Option.or, h]

/-- The field names of a BSON document value (used to state the wire
shape). -/
def Bson.documentKeys : Bson → Option (List String)
  | .document fields => some (fields.map Prod.fst)
  | _ => none

/-! ## Claim theorems -/

/-- C1: `ResumeToken.initial` returns the specification's post-batch resume
token whenever that token is present and the initial batch is empty;
otherwise it returns the caller-supplied `start_after` option if set, else
the `resume_after` option if set, else no token. -/
theorem ResumeToken.initial_spec (options : Option ChangeStreamOptions)
    (spec : CursorSpecification) :
    (∀ t, spec.post_batch_resume_token = some t → spec.initial_buffer = [] →
      ResumeToken.initial options spec = some t) ∧
    (spec.post_batch_resume_token = none ∨ spec.initial_buffer ≠ [] →
      ResumeToken.initial options spec =
        match options with
        | none => none
        | some o =>
          match o.start_after with
          | some t => some t
          | none => o.resume_after) := by
  constructor
  · intro t ht hb
    simp [ResumeToken.initial, ht, hb]
  · intro h
    have hfb : ResumeToken.initial options spec =
        options.bind fun o => o.start_after.or o.resume_after := by
      cases h with
      | inl hn => simp [ResumeToken.initial, hn]
      | inr hb =>
        cases hp : spec.post_batch_resume_token with
        | none => simp [ResumeToken.initial, hp]
        | some t =>
          cases hbuf : spec.initial_buffer with
          | nil => exact absurd hbuf hb
          | cons a l => simp [ResumeToken.initial, hp, hbuf]
    rw [hfb, bind_start_or_resume]

/-- Witness for C1 at concrete inputs: an empty initial batch with a
post-batch token yields that token; no options and no post-batch token
yield no token. -/
theorem ResumeToken.initial_spec_witness :
    ResumeToken.initial none
        (CursorSpecification.mk [] (some (ResumeToken.mk (Bson.string "pbrt")))) =
      some (ResumeToken.mk (Bson.string "pbrt")) ∧
    ResumeToken.initial none (CursorSpecification.mk [] none) = none :=
  ⟨(ResumeToken.initial_spec none
      (CursorSpecification.mk [] (some (ResumeToken.mk (Bson.string "pbrt"))))).1
      (ResumeToken.mk (Bson.string "pbrt")) rfl rfl,
   (ResumeToken.initial_spec none (CursorSpecification.mk [] none)).2 (Or.inl rfl)⟩

/-- Options with both `resume_after` and `start_after` set, used to settle
C2. -/
def bothTokenOptions : ChangeStreamOptions :=
  ChangeStreamOptions.mk (some (ResumeToken.mk (Bson.string "resumeTok")))
    (some (ResumeToken.mk (Bson.string "startTok"))) none none

/-- A cursor specification with no post-batch resume token. -/
def noTokenSpec : CursorSpecification := CursorSpecification.mk [] none

/-- C2 counterexample: with both options set and no post-batch token,
`ResumeToken.initial` returns the `start_after` token, not the
`resume_after` token — `resume_after` does not win. -/
theorem ResumeToken.initial_resume_after_loses :
    ResumeToken.initial (some bothTokenOptions) noTokenSpec =
      some (ResumeToken.mk (Bson.string "startTok")) ∧
    ResumeToken.initial (some bothTokenOptions) noTokenSpec ≠
      some (ResumeToken.mk (Bson.string "resumeTok")) := by
  constructor
  · rfl
  · intro hcontra
    simp [ResumeToken.initial, bothTokenOptions, noTokenSpec, Option.or] at hcontra

/-- C2 amended: when both `resume_after` and `start_after` are supplied (and
the post-batch-token rule does not apply), the `start_after` value wins:
`ResumeToken.initial` returns the `start_after` token. -/
theorem ResumeToken.initial_start_after_wins (o : ChangeStreamOptions)
    (spec : CursorSpecification) (t u : ResumeToken)
    (hs : o.start_after = some t) (_hr : o.resume_after = some u)
    (h : spec.post_batch_resume_token = none ∨ spec.initial_buffer ≠ []) :
    ResumeToken.initial (some o) spec = some t := by
  cases h with
  | inl hn => simp [ResumeToken.initial, hn, hs, Option.or]
  | inr hb =>
    cases hp : spec.post_batch_resume_token with
    | none => simp [ResumeToken.initial, hp, hs, Option.or]
    | some tok =>
      cases hbuf : spec.initial_buffer with
      | nil => exact absurd hbuf hb
      | cons a l => simp [ResumeToken.initial, hp, hbuf, hs, Option.or]

/-- Witness for the amended C2 at concrete inputs. -/
theorem ResumeToken.initial_start_after_wins_witness :
    ResumeToken.initial (some bothTokenOptions) noTokenSpec =
      some (ResumeToken.mk (Bson.string "startTok")) :=
  ResumeToken.initial_start_after_wins bothTokenOptions noTokenSpec
    (ResumeToken.mk (Bson.string "startTok")) (ResumeToken.mk (Bson.string "resumeTok"))
    rfl rfl (Or.inl rfl)

/-- C3 counterexample: a document whose `operationType` is the unrecognized
string "newOperation" does not decode — there is no "unknown" variant. -/
theorem deserialize_unknown_operation_type_cex :
    ChangeStreamEvent.deserialize
      [("_id", Bson.string "tok"), ("operationType", Bson.string "newOperation")] =
      none := rfl

/-- C3 amended: decoding a change-event document whose `operationType`
string is not one of the eight known operation names fails;
`OperationType` has no "unknown" variant. -/
theorem deserialize_unknown_operation_type_fails (b : Bson) (s : String)
    (h : s ∉ ["insert", "update", "replace", "delete", "drop", "rename",
      "dropDatabase", "invalidate"]) :
    ChangeStreamEvent.deserialize [("_id", b), ("operationType", Bson.string s)] =
      none := by
  simp [List.mem_cons] at h
  obtain ⟨h1, h2, h3, h4, h5, h6, h7, h8⟩ := h
  simp [ChangeStreamEvent.deserialize, ChangeStreamEvent.foldFields,
    ChangeStreamEvent.step, EventSlots.empty, parseOperationType,
    OperationType.fromWire, h1, h2, h3, h4, h5, h6, h7, h8]

/-- Witness for the amended C3 at a concrete unrecognized operation name. -/
theorem deserialize_unknown_operation_type_fails_witness :
    ChangeStreamEvent.deserialize
      [("_id", Bson.null), ("operationType", Bson.string "shardCollection")] =
      none :=
  deserialize_unknown_operation_type_fails Bson.null "shardCollection" (by decide)

/-- C4: serializing any change-stream event (in particular an `Update` event
whose `update_description` carries `truncated_arrays`) and deserializing
the resulting document yields the original event. -/
theorem ChangeStreamEvent.serialize_deserialize_roundtrip (e : ChangeStreamEvent) :
    ChangeStreamEvent.deserialize e.serialize = some e :=
  ChangeStreamEvent.roundtrip e

/-- The document used to refute C5: `operationType` is "insert" yet an
`updateDescription` field is present. -/
def insertWithUpdateDescriptionDoc : Document :=
  [("_id", Bson.string "tok"), ("operationType", Bson.string "insert"),
   ("updateDescription",
     Bson.document
       [("updatedFields", Bson.document []), ("removedFields", Bson.array []),
        ("truncatedArrays", Bson.null)])]

/-- C5 counterexample: decoding yields an event whose `operation_type` is
`Insert` — not `Update` — while `update_description` is present. -/
theorem update_description_without_update_cex :
    ChangeStreamEvent.deserialize insertWithUpdateDescriptionDoc =
      some (ChangeStreamEvent.mk (ResumeToken.mk (Bson.string "tok"))
        OperationType.insert none none none (some (UpdateDescription.mk [] [] none))
        none none) ∧
    OperationType.insert ≠ OperationType.update := by
  constructor
  · rfl
  · intro hcontra
    cases hcontra

/-- C5 amended: the decoder does not tie `update_description` to the
operation type: for every operation type (Update or not), a document
carrying an `updateDescription` field decodes to an event with
`update_description` present. -/
theorem update_description_decoded_independently (b : Bson) (op : OperationType)
    (ud : UpdateDescription) :
    ChangeStreamEvent.deserialize
      [("_id", b), ("operationType", Bson.string op.toWire),
       ("updateDescription", ud.toBson)] =
      some (ChangeStreamEvent.mk (ResumeToken.mk b) op none none none (some ud)
        none none) := by
  simp [ChangeStreamEvent.deserialize, ChangeStreamEvent.foldFields,
    ChangeStreamEvent.step, EventSlots.empty, ChangeStreamEvent.finish,
    parseOperationType, OperationType.fromWire_toWire, parseOpt,
    UpdateDescription.toBson_isNull, UpdateDescription.fromBson_toBson_updateDesc]

/-- C6: deserialization tolerates unknown field names: inserting a field
with an unrecognized name anywhere in a document that decodes successfully
leaves the decoded event unchanged. -/
theorem deserialize_tolerates_unknown_fields (l1 l2 : List (String × Bson))
    (k : String) (v : Bson) (e : ChangeStreamEvent) (hk : k ∉ knownEventKeys)
    (he : ChangeStreamEvent.deserialize (l1 ++ l2) = some e) :
    ChangeStreamEvent.deserialize (l1 ++ (k, v) :: l2) = some e := by
  unfold ChangeStreamEvent.deserialize at he ⊢
  rw [foldFields_skip_unknown k v hk]
  exact he

/-- Witness for C6 at a concrete document: an extra "wallTime" field is
ignored. -/
theorem deserialize_tolerates_unknown_fields_witness :
    ChangeStreamEvent.deserialize
      [("_id", Bson.string "tok"), ("operationType", Bson.string "insert"),
       ("wallTime", Bson.null)] =
      some (ChangeStreamEvent.mk (ResumeToken.mk (Bson.string "tok"))
        OperationType.insert none none none none none none) :=
  deserialize_tolerates_unknown_fields
    [("_id", Bson.string "tok"), ("operationType", Bson.string "insert")] []
    "wallTime" Bson.null
    (ChangeStreamEvent.mk (ResumeToken.mk (Bson.string "tok"))
      OperationType.insert none none none none none none)
    (by decide) rfl

/-- C7: the serialized wire shape uses exactly the field names `_id`,
`operationType`, `ns`, `to`, `documentKey`, `updateDescription` (with
nested `updatedFields`, `removedFields`, `truncatedArrays`), `clusterTime`
and `fullDocument`; each truncated-array entry carries `field` and
`newSize`. -/
theorem wire_field_names (e : ChangeStreamEvent) (u : UpdateDescription)
    (t : TruncatedArray) :
    e.serialize.map Prod.fst =
      ["_id", "operationType", "ns", "to", "documentKey", "updateDescription",
       "clusterTime", "fullDocument"] ∧
    u.toBson.documentKeys =
      some ["updatedFields", "removedFields", "truncatedArrays"] ∧
    t.toBson.documentKeys = some ["field", "newSize"] :=
  ⟨rfl, rfl, rfl⟩

/-- C8: a `ConnectionPoolOptions` constructed without explicit sizes leaves
`max_pool_size` and `min_pool_size` unset; the pool's effective defaults
(modelled from the spec) are 10 and 0 respectively. -/
theorem pool_options_default_sizes :
    ConnectionPoolOptions.default.max_pool_size = none ∧
    ConnectionPoolOptions.default.effectiveMaxPoolSize = 10 ∧
    ConnectionPoolOptions.default.min_pool_size = none ∧
    ConnectionPoolOptions.default.effectiveMinPoolSize = 0 :=
  ⟨rfl, rfl, rfl, rfl⟩

/-- C9: `ResumeToken.from_raw` returns `none` exactly on `none`, and wraps a
present document as an untransformed raw BSON document. -/
theorem ResumeToken.from_raw_spec :
    (∀ doc : Option Document, ResumeToken.from_raw doc = none ↔ doc = none) ∧
    (∀ d : Document,
      ResumeToken.from_raw (some d) = some (ResumeToken.mk (Bson.document d))) := by
  constructor
  · intro doc
    cases doc <;> simp [ResumeToken.from_raw]
  · intro d
    rfl

/-- C10: deserializing a `BackgroundThreadInterval` from a signed
millisecond count yields `Never` for negative values, errors on zero, and
yields `Every` of exactly that many milliseconds for positive values. -/
theorem BackgroundThreadInterval.deserialize_spec (m : Int) :
    (m < 0 →
      BackgroundThreadInterval.deserialize m = Except.ok BackgroundThreadInterval.never) ∧
    (BackgroundThreadInterval.deserialize 0 = Except.error "zero is not allowed") ∧
    (0 < m →
      BackgroundThreadInterval.deserialize m =
        Except.ok (BackgroundThreadInterval.every (Duration.from_millis m.toNat))) := by
  refine ⟨fun h => ?_, rfl, fun h => ?_⟩
  · simp [BackgroundThreadInterval.deserialize, h]
  · have h1 : ¬m < 0 := by omega
    have h2 : ¬m = 0 := by omega
    simp [BackgroundThreadInterval.deserialize, h1, h2]

/-- Witness for C10 at the concrete inputs -5, 0 and 7. -/
theorem BackgroundThreadInterval.deserialize_spec_witness :
    BackgroundThreadInterval.deserialize (-5) =
      Except.ok BackgroundThreadInterval.never ∧
    BackgroundThreadInterval.deserialize 0 = Except.error "zero is not allowed" ∧
    BackgroundThreadInterval.deserialize 7 =
      Except.ok (BackgroundThreadInterval.every (Duration.from_millis 7)) :=
  ⟨(BackgroundThreadInterval.deserialize_spec (-5)).1 (by decide),
   (BackgroundThreadInterval.deserialize_spec 0).2.1,
   (BackgroundThreadInterval.deserialize_spec 7).2.2 (by decide)⟩

end Mongo
